import Mathlib

/-!
Shallow embedding of `src/api/src/imp/fs/stat.rs` from Starry-OS/starry-next:
the file-metadata syscall family (`stat`, `fstat`, `lstat`, `fstatat`,
`statx`, `statfs`).

External collaborators (the `axfs` opener, the descriptor table
`get_file_like`, the path joiner `handle_file_path`, the `Kstat → stat/statx`
layout conversions, and user-memory accessors) are modelled as components of
an environment record; the decision logic of `stat.rs` itself is translated
function by function.  User pointers are modelled by the outcome of their
dereference: `Except LinuxError α` (a `.error` value stands for a faulting
pointer, `.ok` for a successful read).  Each syscall returns the pair of its
`LinuxResult` and the final content of the caller-supplied output buffer, so
that buffer writes are observable.  Rust evaluates the right operand of
`*buf.get_as_mut()? = rhs` before dereferencing the place expression, so
every embedding computes the full right-hand side first and only then
consults the output-buffer pointer.
-/

deriving instance DecidableEq for Except

/-- Error codes of the `axerrno::AxError` collaborator type that the code in
`stat.rs` can receive from the `axfs` opener (taxonomy from the spec, §7). -/
inductive AxError where
  | NotFound
  | PermissionDenied
  | IsADirectory
  | NotADirectory
  | InvalidInput
  | NoMemory
  | Io
deriving DecidableEq, Repr

/-- Error codes of the `axerrno::LinuxError` collaborator type surfaced to
the caller. -/
inductive LinuxError where
  | ENOENT
  | EACCES
  | EISDIR
  | ENOTDIR
  | EINVAL
  | ENOMEM
  | EIo
  | EBADF
  | EFAULT
deriving DecidableEq, Repr

/-- The `From<AxError> for LinuxError` conversion of the `axerrno`
collaborator crate, used by `e.into()` and by the `?` operator in
`stat_at_path`. -/
def AxError.toLinux : AxError → LinuxError
  | .NotFound => .ENOENT
  | .PermissionDenied => .EACCES
  | .IsADirectory => .EISDIR
  | .NotADirectory => .ENOTDIR
  | .InvalidInput => .EINVAL
  | .NoMemory => .ENOMEM
  | .Io => .EIo

/-- The metadata record produced by the metadata-producer collaborator
(`crate::fd::Kstat`): the kind-independent aggregate of POSIX stat fields. -/
structure Kstat where
  ino : Nat
  mode : Nat
  nlink : Nat
  uid : Nat
  gid : Nat
  size : Nat
  blksize : Nat
  blocks : Nat
  atime_sec : Int
  mtime_sec : Int
  ctime_sec : Int
deriving DecidableEq, Repr

/-- The Linux-ABI `stat` output structure written into the caller's
buffer. -/
structure stat where
  st_dev : Nat
  st_ino : Nat
  st_mode : Nat
  st_nlink : Nat
  st_uid : Nat
  st_gid : Nat
  st_rdev : Nat
  st_size : Nat
  st_blksize : Nat
  st_blocks : Nat
  st_atime_sec : Int
  st_mtime_sec : Int
  st_ctime_sec : Int
deriving DecidableEq, Repr

/-- The all-zero `stat` value produced by `core::mem::zeroed()` in
`sys_lstat`. -/
def stat.zeroed : stat :=
  { st_dev := 0, st_ino := 0, st_mode := 0, st_nlink := 0, st_uid := 0,
    st_gid := 0, st_rdev := 0, st_size := 0, st_blksize := 0, st_blocks := 0,
    st_atime_sec := 0, st_mtime_sec := 0, st_ctime_sec := 0 }

/-- The Linux-ABI `statx` output structure written by `sys_statx`. -/
structure statx where
  stx_mask : Nat
  stx_blksize : Nat
  stx_nlink : Nat
  stx_uid : Nat
  stx_gid : Nat
  stx_mode : Nat
  stx_ino : Nat
  stx_size : Nat
  stx_blocks : Nat
  stx_atime_sec : Int
  stx_mtime_sec : Int
  stx_ctime_sec : Int
deriving DecidableEq, Repr

/-- An all-zero `statx` value, used as an initial buffer content in concrete
instantiations. -/
def statx.zeroed : statx :=
  { stx_mask := 0, stx_blksize := 0, stx_nlink := 0, stx_uid := 0,
    stx_gid := 0, stx_mode := 0, stx_ino := 0, stx_size := 0, stx_blocks := 0,
    stx_atime_sec := 0, stx_mtime_sec := 0, stx_ctime_sec := 0 }

/-- The Linux-ABI `statfs` output structure written by `sys_statfs`. -/
structure statfs where
  f_type : Nat
  f_bsize : Nat
  f_blocks : Nat
  f_bfree : Nat
  f_bavail : Nat
  f_files : Nat
  f_ffree : Nat
  f_fsid : Nat
  f_namelen : Nat
  f_frsize : Nat
  f_flags : Nat
deriving DecidableEq, Repr

/-- The all-zero `statfs` value produced by `core::mem::zeroed()` in
`sys_statfs` before the constant fields are set. -/
def statfs.zeroed : statfs :=
  { f_type := 0, f_bsize := 0, f_blocks := 0, f_bfree := 0, f_bavail := 0,
    f_files := 0, f_ffree := 0, f_fsid := 0, f_namelen := 0, f_frsize := 0,
    f_flags := 0 }

/-- A descriptor-table entry (`crate::fd::FileLike` trait object): for this
core only its `stat()` method is observable. -/
structure FileLike where
  stat : Except LinuxError Kstat
deriving DecidableEq

/-- The object-opener and metadata-producer collaborators consumed by
`stat_at_path`.  File and directory handles are opaque (modelled as `Nat`).
`openFile` is `axfs::fops::File::open(path, read)`; `openDir` is
`axfs::fops::Directory::open_dir(path, read)`; `fileStat h p` is
`File::new(h, p).stat()`; `dirStat h p` is `Directory::new(h, p).stat()`. -/
structure FsEnv where
  openFile : String → Except AxError Nat
  openDir : String → Except AxError Nat
  fileStat : Nat → String → Except LinuxError Kstat
  dirStat : Nat → String → Except LinuxError Kstat

/-- The full collaborator environment of the syscall entry points: the
filesystem opener (`fs`), the descriptor table (`getFileLike`, i.e.
`get_file_like(fd)`), the path joiner (`handleFilePath`, i.e.
`handle_file_path(dirfd, path)`), and the `Kstat → stat` / `Kstat → statx`
layout conversions (the `.into()` calls). -/
structure SysEnv where
  fs : FsEnv
  getFileLike : Int → Except LinuxError FileLike
  handleFilePath : Int → String → Except LinuxError String
  kstatToStat : Kstat → stat
  kstatToStatx : Kstat → statx

/-- `AT_EMPTY_PATH` flag bit from `linux_raw_sys::general`. -/
def AT_EMPTY_PATH : Nat := 0x1000

/-- `fn stat_at_path(path: &str) -> LinuxResult<Kstat>`: open the path as a
file for read; on success take the file handle's metadata; on the
`IsADirectory` failure reopen as a directory and take its metadata; any
other open failure is converted by `into()` and returned. -/
def stat_at_path (fs : FsEnv) (path : String) : Except LinuxError Kstat :=
  match fs.openFile path with
  | .ok file => fs.fileStat file path
  | .error .IsADirectory =>
    match fs.openDir path with
    | .ok dir => fs.dirStat dir path
    | .error e => .error e.toLinux
  | .error e => .error e.toLinux

/-- One call to an opener collaborator, recorded for call-count
reasoning. -/
inductive OpenEvent where
  | fileOpen (path : String)
  | dirOpen (path : String)
deriving DecidableEq, Repr

/-- `stat_at_path` instrumented with the sequence of opener calls it makes,
in order.  The control flow is the same as `stat_at_path`; the second
component records every `openFile`/`openDir` attempt. -/
def stat_at_path_events (fs : FsEnv) (path : String) :
    Except LinuxError Kstat × List OpenEvent :=
  match fs.openFile path with
  | .ok file => (fs.fileStat file path, [.fileOpen path])
  | .error .IsADirectory =>
    match fs.openDir path with
    | .ok dir => (fs.dirStat dir path, [.fileOpen path, .dirOpen path])
    | .error e => (.error e.toLinux, [.fileOpen path, .dirOpen path])
  | .error e => (.error e.toLinux, [.fileOpen path])

/-- Directly opening a path as a directory and querying the handle's
metadata, with no file-open probe: the reference behaviour the spec compares
`stat_at_path` against on directory paths. -/
def dir_stat_direct (fs : FsEnv) (path : String) : Except LinuxError Kstat :=
  match fs.openDir path with
  | .ok dir => fs.dirStat dir path
  | .error e => .error e.toLinux

/-- The `*buf.get_as_mut()? = v` step shared by every entry point: if the
right-hand side `v` already failed, that error is returned and the buffer is
untouched; otherwise the buffer pointer is dereferenced (possibly faulting)
and the value is written, yielding `Ok(0)`. -/
def writeBuf {α : Type} (v : Except LinuxError α)
    (bufptr : Except LinuxError Unit) (buf0 : α) :
    Except LinuxError Int × α :=
  match v with
  | .error e => (.error e, buf0)
  | .ok w =>
    match bufptr with
    | .error e => (.error e, buf0)
    | .ok _ => (.ok 0, w)

/-- The expression `stat_at_path(p)?.into()` of `sys_stat`/`sys_fstatat`:
run the open-and-classify helper and convert the record to the `stat`
layout. -/
def statTargetAt (env : SysEnv) (p : String) : Except LinuxError stat :=
  match stat_at_path env.fs p with
  | .error e => .error e
  | .ok k => .ok (env.kstatToStat k)

/-- The expression `get_file_like(fd)?.stat()?.into()` of
`sys_fstat`/`sys_fstatat`: look the descriptor up and convert its metadata
to the `stat` layout. -/
def fdTarget (env : SysEnv) (fd : Int) : Except LinuxError stat :=
  match env.getFileLike fd with
  | .error e => .error e
  | .ok f =>
    match f.stat with
    | .error e => .error e
    | .ok k => .ok (env.kstatToStat k)

/-- As `statTargetAt`, but converting to the `statx` layout
(`sys_statx`). -/
def statxTargetAt (env : SysEnv) (p : String) : Except LinuxError statx :=
  match stat_at_path env.fs p with
  | .error e => .error e
  | .ok k => .ok (env.kstatToStatx k)

/-- As `fdTarget`, but converting to the `statx` layout (`sys_statx`). -/
def fdTargetx (env : SysEnv) (fd : Int) : Except LinuxError statx :=
  match env.getFileLike fd with
  | .error e => .error e
  | .ok f =>
    match f.stat with
    | .error e => .error e
    | .ok k => .ok (env.kstatToStatx k)

/-- `sys_stat(path, statbuf)`: read the path string, run `stat_at_path`,
then (and only then) dereference `statbuf` and write the converted
record. -/
def sys_stat (env : SysEnv) (path : Except LinuxError String)
    (statbuf : Except LinuxError Unit) (buf0 : stat) :
    Except LinuxError Int × stat :=
  match path with
  | .error e => (.error e, buf0)
  | .ok p => writeBuf (statTargetAt env p) statbuf buf0

/-- `sys_fstat(fd, statbuf)`: look the descriptor up in the table, take its
metadata, then dereference `statbuf` and write the converted record. -/
def sys_fstat (env : SysEnv) (fd : Int)
    (statbuf : Except LinuxError Unit) (buf0 : stat) :
    Except LinuxError Int × stat :=
  writeBuf (fdTarget env fd) statbuf buf0

/-- `sys_lstat(path, statbuf)`: read the path string (symlink metadata is a
TODO in the source), then write a zeroed `stat` structure into the
buffer. -/
def sys_lstat (path : Except LinuxError String)
    (statbuf : Except LinuxError Unit) (buf0 : stat) :
    Except LinuxError Int × stat :=
  match path with
  | .error e => (.error e, buf0)
  | .ok _ => writeBuf (.ok stat.zeroed) statbuf buf0

/-- The `is_none_or(|s| s.is_empty())` test on the decoded path argument. -/
def pathEmptyish : Option String → Bool
  | none => true
  | some s => s.isEmpty

/-- The right-hand side of the buffer assignment in `sys_fstatat`: if the
path is absent or empty, require `AT_EMPTY_PATH` (else `ENOENT`) and take
the metadata of the descriptor-table entry `dirfd`; otherwise join `dirfd`
with the path via `handle_file_path` and run `stat_at_path` on the
result. -/
def fstatatTarget (env : SysEnv) (dirfd : Int) (p : Option String)
    (flags : Nat) : Except LinuxError stat :=
  if pathEmptyish p then
    if flags &&& AT_EMPTY_PATH == 0 then .error .ENOENT
    else fdTarget env dirfd
  else
    match env.handleFilePath dirfd (p.getD "") with
    | .error e => .error e
    | .ok rp => statTargetAt env rp

/-- `sys_fstatat(dirfd, path, statbuf, flags)`: decode the nullable path,
compute `fstatatTarget`, then dereference `statbuf` and write. -/
def sys_fstatat (env : SysEnv) (dirfd : Int)
    (path : Except LinuxError (Option String))
    (statbuf : Except LinuxError Unit) (flags : Nat) (buf0 : stat) :
    Except LinuxError Int × stat :=
  match path with
  | .error e => (.error e, buf0)
  | .ok p => writeBuf (fstatatTarget env dirfd p flags) statbuf buf0

/-- The right-hand side of the buffer assignment in `sys_statx`: the same
resolution as `fstatatTarget`, serialized into the `statx` layout. -/
def statxTarget (env : SysEnv) (dirfd : Int) (p : Option String)
    (flags : Nat) : Except LinuxError statx :=
  if pathEmptyish p then
    if flags &&& AT_EMPTY_PATH == 0 then .error .ENOENT
    else fdTargetx env dirfd
  else
    match env.handleFilePath dirfd (p.getD "") with
    | .error e => .error e
    | .ok rp => statxTargetAt env rp

/-- `sys_statx(dirfd, path, flags, mask, statxbuf)`: decode the nullable
path, compute `statxTarget` (the `mask` argument is accepted but unused),
then dereference `statxbuf` and write. -/
def sys_statx (env : SysEnv) (dirfd : Int)
    (path : Except LinuxError (Option String)) (flags : Nat) (_mask : Nat)
    (statxbuf : Except LinuxError Unit) (buf0 : statx) :
    Except LinuxError Int × statx :=
  match path with
  | .error e => (.error e, buf0)
  | .ok p => writeBuf (statxTarget env dirfd p flags) statxbuf buf0

/-- The constant `statfs` record built by `sys_statfs`: a zeroed structure
with `f_bsize = 4096`, `f_blocks = 1024`, `f_bfree = 512`, `f_bavail = 256`,
`f_files = 1024`, `f_ffree = 512`, `f_namelen = 255`. -/
def statfsStub : statfs :=
  { statfs.zeroed with
    f_bsize := 4096, f_blocks := 1024, f_bfree := 512, f_bavail := 256,
    f_files := 1024, f_ffree := 512, f_namelen := 255 }

/-- `sys_statfs(path, statfsbuf)`: read the path string, ignore it, and
write the fixed `statfsStub` record into the buffer.  No collaborator other
than the user-memory accessors is consulted. -/
def sys_statfs (path : Except LinuxError String)
    (statfsbuf : Except LinuxError Unit) (buf0 : statfs) :
    Except LinuxError Int × statfs :=
  match path with
  | .error e => (.error e, buf0)
  | .ok _ => writeBuf (.ok statfsStub) statfsbuf buf0

/-- The shared resolution algorithm of the spec, §4.1 (steps 1 and 2),
producing the metadata record before any layout serialization: empty-path
addressing through the descriptor table when `AT_EMPTY_PATH` is set
(`ENOENT` otherwise), path addressing through the path joiner and
`stat_at_path` otherwise.  Used to state that `sys_fstatat` and `sys_statx`
resolve identically and differ only in the output layout. -/
def resolveKstat (env : SysEnv) (dirfd : Int) (p : Option String)
    (flags : Nat) : Except LinuxError Kstat :=
  if pathEmptyish p then
    if flags &&& AT_EMPTY_PATH == 0 then .error .ENOENT
    else
      match env.getFileLike dirfd with
      | .error e => .error e
      | .ok f => f.stat
  else
    match env.handleFilePath dirfd (p.getD "") with
    | .error e => .error e
    | .ok rp => stat_at_path env.fs rp

/-- File metadata used by the concrete witness environment. -/
def kstatFileW : Kstat :=
  { ino := 7, mode := 0o100644, nlink := 1, uid := 1000, gid := 1000,
    size := 42, blksize := 4096, blocks := 1,
    atime_sec := 10, mtime_sec := 11, ctime_sec := 12 }

/-- Directory metadata used by the concrete witness environment. -/
def kstatDirW : Kstat :=
  { ino := 2, mode := 0o40755, nlink := 2, uid := 0, gid := 0,
    size := 4096, blksize := 4096, blocks := 8,
    atime_sec := 20, mtime_sec := 21, ctime_sec := 22 }

/-- A concrete opener environment: `/a/b/subdir/file.txt` is a regular file
(handle 1), `/d` is a directory (handle 2), everything else is missing. -/
def fsW : FsEnv :=
  { openFile := fun p =>
      if p = "/a/b/subdir/file.txt" then .ok 1
      else if p = "/d" then .error .IsADirectory
      else .error .NotFound
    openDir := fun p => if p = "/d" then .ok 2 else .error .NotFound
    fileStat := fun h _ => if h = 1 then .ok kstatFileW else .error .EIo
    dirStat := fun h _ => if h = 2 then .ok kstatDirW else .error .EIo }

/-- The `Kstat → stat` layout conversion used by the witness
environment. -/
def kstatToStatW (k : Kstat) : stat :=
  { st_dev := 0, st_ino := k.ino, st_mode := k.mode, st_nlink := k.nlink,
    st_uid := k.uid, st_gid := k.gid, st_rdev := 0, st_size := k.size,
    st_blksize := k.blksize, st_blocks := k.blocks,
    st_atime_sec := k.atime_sec, st_mtime_sec := k.mtime_sec,
    st_ctime_sec := k.ctime_sec }

/-- The `Kstat → statx` layout conversion used by the witness
environment. -/
def kstatToStatxW (k : Kstat) : statx :=
  { stx_mask := 0, stx_blksize := k.blksize, stx_nlink := k.nlink,
    stx_uid := k.uid, stx_gid := k.gid, stx_mode := k.mode,
    stx_ino := k.ino, stx_size := k.size, stx_blocks := k.blocks,
    stx_atime_sec := k.atime_sec, stx_mtime_sec := k.mtime_sec,
    stx_ctime_sec := k.ctime_sec }

/-- A concrete syscall environment: descriptor 3 is a file-like entry whose
metadata is `kstatFileW`; every other descriptor is invalid; the path joiner
joins descriptor 3 with `subdir/file.txt` to `/a/b/subdir/file.txt`. -/
def envW : SysEnv :=
  { fs := fsW
    getFileLike := fun fd =>
      if fd = 3 then .ok ⟨.ok kstatFileW⟩ else .error .EBADF
    handleFilePath := fun fd p =>
      if fd = 3 ∧ p = "subdir/file.txt" then .ok "/a/b/subdir/file.txt"
      else .error .EBADF
    kstatToStat := kstatToStatW
    kstatToStatx := kstatToStatxW }

/-- Shared helper: the instrumented `stat_at_path_events` computes the same
result as `stat_at_path`. -/
theorem stat_at_path_events_fst (fs : FsEnv) (path : String) :
    (stat_at_path_events fs path).1 = stat_at_path fs path := by
  unfold stat_at_path_events stat_at_path
  cases h : fs.openFile path with
  | ok file => rfl
  | error e =>
    cases e <;> try rfl
    cases fs.openDir path <;> rfl

/-- Shared helper: if `writeBuf` reports an error, the buffer content is the
initial one. -/
theorem writeBuf_error_snd {α : Type} (v : Except LinuxError α)
    (bufptr : Except LinuxError Unit) (buf0 : α) (e : LinuxError)
    (h : (writeBuf v bufptr buf0).1 = .error e) :
    (writeBuf v bufptr buf0).2 = buf0 := by
  unfold writeBuf at h ⊢
  cases v with
  | error e2 => rfl
  | ok w =>
    cases bufptr with
    | error e2 => rfl
    | ok u => simp at h

/-- Shared helper: the `sys_fstatat` right-hand side is the shared
resolution algorithm followed by serialization to the `stat` layout. -/
theorem fstatatTarget_eq_resolve (env : SysEnv) (dirfd : Int)
    (p : Option String) (flags : Nat) :
    fstatatTarget env dirfd p flags =
      (resolveKstat env dirfd p flags).map env.kstatToStat := by
  unfold fstatatTarget resolveKstat fdTarget statTargetAt
  cases hp : pathEmptyish p
  · simp only [hp, Bool.false_eq_true, if_false]
    cases hj : env.handleFilePath dirfd (p.getD "") with
    | error e => rfl
    | ok rp =>
      dsimp only
      cases hs : stat_at_path env.fs rp <;> rfl
  · simp only [hp, if_true]
    cases hf : (flags &&& AT_EMPTY_PATH == 0)
    · simp only [hf, Bool.false_eq_true, if_false]
      cases hg : env.getFileLike dirfd with
      | error e => rfl
      | ok f =>
        dsimp only
        cases hs : f.stat <;> rfl
    · simp only [hf, if_true]
      rfl

/-- Shared helper: the `sys_statx` right-hand side is the shared resolution
algorithm followed by serialization to the `statx` layout. -/
theorem statxTarget_eq_resolve (env : SysEnv) (dirfd : Int)
    (p : Option String) (flags : Nat) :
    statxTarget env dirfd p flags =
      (resolveKstat env dirfd p flags).map env.kstatToStatx := by
  unfold statxTarget resolveKstat fdTargetx statxTargetAt
  cases hp : pathEmptyish p
  · simp only [hp, Bool.false_eq_true, if_false]
    cases hj : env.handleFilePath dirfd (p.getD "") with
    | error e => rfl
    | ok rp =>
      dsimp only
      cases hs : stat_at_path env.fs rp <;> rfl
  · simp only [hp, if_true]
    cases hf : (flags &&& AT_EMPTY_PATH == 0)
    · simp only [hf, Bool.false_eq_true, if_false]
      cases hg : env.getFileLike dirfd with
      | error e => rfl
      | ok f =>
        dsimp only
        cases hs : f.stat <;> rfl
    · simp only [hf, if_true]
      rfl

/-- Claim C1: when the initial file-open of `stat_at_path` fails with any
classification other than `IsADirectory`, that error is propagated (through
the standard `AxError → LinuxError` conversion) and no directory-open is
attempted: the opener trace is exactly one file-open. -/
theorem stat_at_path_propagates_other_errors (fs : FsEnv) (path : String)
    (e : AxError) (hopen : fs.openFile path = .error e)
    (hne : e ≠ AxError.IsADirectory) :
    stat_at_path fs path = .error e.toLinux ∧
    (stat_at_path_events fs path).2 = [OpenEvent.fileOpen path] := by
  unfold stat_at_path stat_at_path_events
  rw [hopen]
  cases e <;> first
    | exact absurd rfl hne
    | exact ⟨rfl, rfl⟩

/-- Witness for C1: on the missing path `"/missing"` the concrete
environment fails the file-open with `NotFound`; `stat_at_path` returns
`ENOENT` and makes no directory-open attempt. -/
theorem stat_at_path_propagates_other_errors_witness :
    stat_at_path fsW "/missing" = .error .ENOENT ∧
    (stat_at_path_events fsW "/missing").2 = [OpenEvent.fileOpen "/missing"] :=
  stat_at_path_propagates_other_errors fsW "/missing" .NotFound
    (by decide) (by decide)

/-- Claim C2: when the file-open fails with `IsADirectory`, `stat_at_path`
returns exactly the result of directly opening the path as a directory and
querying its metadata, and its opener trace is one file-open followed by one
directory-open; when the file-open succeeds with handle `f`, it returns the
metadata of that file handle, with a single file-open in the trace. -/
theorem stat_at_path_directory_probe (fs : FsEnv) (path : String) :
    (fs.openFile path = .error AxError.IsADirectory →
      stat_at_path fs path = dir_stat_direct fs path ∧
      (stat_at_path_events fs path).2 =
        [OpenEvent.fileOpen path, OpenEvent.dirOpen path]) ∧
    (∀ f, fs.openFile path = .ok f →
      stat_at_path fs path = fs.fileStat f path ∧
      (stat_at_path_events fs path).2 = [OpenEvent.fileOpen path]) := by
  constructor
  · intro h
    unfold stat_at_path stat_at_path_events dir_stat_direct
    rw [h]
    cases fs.openDir path <;> exact ⟨rfl, rfl⟩
  · intro f h
    unfold stat_at_path stat_at_path_events
    rw [h]
    exact ⟨rfl, rfl⟩

/-- Witness for C2: in the concrete environment, the directory `/d` goes
through the fallback and yields the directory metadata, and the regular
file `/a/b/subdir/file.txt` yields its file-handle metadata. -/
theorem stat_at_path_directory_probe_witness :
    (stat_at_path fsW "/d" = dir_stat_direct fsW "/d" ∧
      (stat_at_path_events fsW "/d").2 =
        [OpenEvent.fileOpen "/d", OpenEvent.dirOpen "/d"]) ∧
    (stat_at_path fsW "/a/b/subdir/file.txt" =
        fsW.fileStat 1 "/a/b/subdir/file.txt" ∧
      (stat_at_path_events fsW "/a/b/subdir/file.txt").2 =
        [OpenEvent.fileOpen "/a/b/subdir/file.txt"]) :=
  ⟨(stat_at_path_directory_probe fsW "/d").1 (by decide),
   (stat_at_path_directory_probe fsW "/a/b/subdir/file.txt").2 1 (by decide)⟩

/-- Claim C3: with an absent or empty path and `AT_EMPTY_PATH` not set,
`sys_fstatat` and `sys_statx` fail with `ENOENT` and leave the buffer
untouched, for every environment (in particular, the descriptor table is
never consulted and the descriptor's validity is irrelevant). -/
theorem empty_path_without_flag_enoent (env : SysEnv) (dirfd : Int)
    (p : Option String) (sb : Except LinuxError Unit) (flags mask : Nat)
    (buf0 : stat) (bufx0 : statx)
    (hp : pathEmptyish p = true) (hf : flags &&& AT_EMPTY_PATH = 0) :
    sys_fstatat env dirfd (.ok p) sb flags buf0 =
      (.error LinuxError.ENOENT, buf0) ∧
    sys_statx env dirfd (.ok p) flags mask sb bufx0 =
      (.error LinuxError.ENOENT, bufx0) := by
  have hb : (flags &&& AT_EMPTY_PATH == 0) = true := by
    simp [hf]
  constructor
  · unfold sys_fstatat fstatatTarget
    dsimp only
    rw [hp]
    simp [hb, writeBuf]
  · unfold sys_statx statxTarget
    dsimp only
    rw [hp]
    simp [hb, writeBuf]

/-- Witness for C3: with a valid descriptor (3) and empty path but no
`AT_EMPTY_PATH` flag, both calls fail with `ENOENT`. -/
theorem empty_path_without_flag_enoent_witness :
    sys_fstatat envW 3 (.ok (some "")) (.ok ()) 0 stat.zeroed =
      (.error LinuxError.ENOENT, stat.zeroed) ∧
    sys_statx envW 3 (.ok (some "")) 0 0 (.ok ()) statx.zeroed =
      (.error LinuxError.ENOENT, statx.zeroed) :=
  empty_path_without_flag_enoent envW 3 (some "") (.ok ()) 0 0
    stat.zeroed statx.zeroed (by decide) (by decide)

/-- Claim C4: with an absent or empty path and `AT_EMPTY_PATH` set,
`sys_fstatat` behaves exactly as `sys_fstat` on the same descriptor — same
metadata on success, same error on failure; in particular an invalid
descriptor yields `EBADF`, not `ENOENT`. -/
theorem empty_path_with_flag_matches_fstat (env : SysEnv) (dirfd : Int)
    (p : Option String) (sb : Except LinuxError Unit) (flags : Nat)
    (buf0 : stat)
    (hp : pathEmptyish p = true) (hf : flags &&& AT_EMPTY_PATH ≠ 0) :
    sys_fstatat env dirfd (.ok p) sb flags buf0 =
      sys_fstat env dirfd sb buf0 ∧
    (env.getFileLike dirfd = .error LinuxError.EBADF →
      (sys_fstatat env dirfd (.ok p) sb flags buf0).1 =
        .error LinuxError.EBADF) := by
  have hb : (flags &&& AT_EMPTY_PATH == 0) = false := by
    simp [hf]
  have hmain : sys_fstatat env dirfd (.ok p) sb flags buf0 =
      sys_fstat env dirfd sb buf0 := by
    unfold sys_fstatat sys_fstat fstatatTarget
    dsimp only
    rw [hp]
    simp [hb]
  refine ⟨hmain, fun hbad => ?_⟩
  rw [hmain]
  unfold sys_fstat fdTarget writeBuf
  rw [hbad]

/-- Witness for C4: descriptor 99 is invalid in the concrete environment;
the empty-path call with the flag equals `sys_fstat` and fails `EBADF`. -/
theorem empty_path_with_flag_matches_fstat_witness :
    sys_fstatat envW 99 (.ok none) (.ok ()) 4096 stat.zeroed =
      sys_fstat envW 99 (.ok ()) stat.zeroed ∧
    (sys_fstatat envW 99 (.ok none) (.ok ()) 4096 stat.zeroed).1 =
      .error LinuxError.EBADF :=
  ⟨(empty_path_with_flag_matches_fstat envW 99 none (.ok ()) 4096
      stat.zeroed (by decide) (by decide)).1,
   (empty_path_with_flag_matches_fstat envW 99 none (.ok ()) 4096
      stat.zeroed (by decide) (by decide)).2 (by decide)⟩

/-- Claim C5: for a non-empty path `p` that the path joiner resolves against
`dirfd` to `j`, `sys_fstatat(dirfd, p, ·, 0)` coincides with `sys_stat` on
`j`: both reduce to the open-and-classify helper applied to the joined
path. -/
theorem fstatat_relative_matches_stat_on_joined (env : SysEnv) (dirfd : Int)
    (p j : String) (sb : Except LinuxError Unit) (buf0 : stat)
    (hne : p.isEmpty = false)
    (hj : env.handleFilePath dirfd p = .ok j) :
    sys_fstatat env dirfd (.ok (some p)) sb 0 buf0 =
      sys_stat env (.ok j) sb buf0 ∧
    sys_fstatat env dirfd (.ok (some p)) sb 0 buf0 =
      writeBuf (statTargetAt env j) sb buf0 := by
  have h1 : sys_fstatat env dirfd (.ok (some p)) sb 0 buf0 =
      writeBuf (statTargetAt env j) sb buf0 := by
    unfold sys_fstatat fstatatTarget
    dsimp only
    simp [pathEmptyish, hne, hj]
  exact ⟨h1.trans rfl, h1⟩

/-- Witness for C5: joining descriptor 3 (directory `/a/b`) with
`subdir/file.txt` gives `/a/b/subdir/file.txt`, and the two calls agree. -/
theorem fstatat_relative_matches_stat_on_joined_witness :
    sys_fstatat envW 3 (.ok (some "subdir/file.txt")) (.ok ()) 0
      stat.zeroed =
      sys_stat envW (.ok "/a/b/subdir/file.txt") (.ok ()) stat.zeroed :=
  (fstatat_relative_matches_stat_on_joined envW 3 "subdir/file.txt"
    "/a/b/subdir/file.txt" (.ok ()) stat.zeroed (by decide) (by decide)).1

/-- Claim C6: `sys_fstatat` and `sys_statx` apply the identical resolution
algorithm `resolveKstat` — same addressing mode, same collaborators, same
metadata record, same errors — and differ only in the layout conversion
(`kstatToStat` vs `kstatToStatx`) applied to the resolved record before the
buffer write. -/
theorem fstatat_statx_identical_resolution (env : SysEnv) (dirfd : Int)
    (path : Except LinuxError (Option String)) (sb : Except LinuxError Unit)
    (flags mask : Nat) (buf0 : stat) (bufx0 : statx) :
    sys_fstatat env dirfd path sb flags buf0 =
      (match path with
       | .error e => (.error e, buf0)
       | .ok p =>
         writeBuf ((resolveKstat env dirfd p flags).map env.kstatToStat)
           sb buf0) ∧
    sys_statx env dirfd path flags mask sb bufx0 =
      (match path with
       | .error e => (.error e, bufx0)
       | .ok p =>
         writeBuf ((resolveKstat env dirfd p flags).map env.kstatToStatx)
           sb bufx0) := by
  constructor
  · cases path with
    | error e => rfl
    | ok p =>
      unfold sys_fstatat
      dsimp only
      rw [fstatatTarget_eq_resolve]
  · cases path with
    | error e => rfl
    | ok p =>
      unfold sys_statx
      dsimp only
      rw [statxTarget_eq_resolve]

/-- Claim C7: for every readable path argument (existing or not) and valid
output buffer, `sys_statfs` succeeds and writes the fixed record: block size
4096, 1024 total blocks, 512 free, 256 available, 1024 file nodes, 512 free
file nodes, max filename length 255.  `sys_statfs` consults no collaborator
besides the user-memory accessors, so no filesystem resolution occurs. -/
theorem statfs_stub_constants (p : String) (buf0 : statfs) :
    sys_statfs (.ok p) (.ok ()) buf0 = (.ok 0, statfsStub) ∧
    statfsStub.f_bsize = 4096 ∧ statfsStub.f_blocks = 1024 ∧
    statfsStub.f_bfree = 512 ∧ statfsStub.f_bavail = 256 ∧
    statfsStub.f_files = 1024 ∧ statfsStub.f_ffree = 512 ∧
    statfsStub.f_namelen = 255 :=
  ⟨rfl, rfl, rfl, rfl, rfl, rfl, rfl, rfl⟩

/-- Claim C8: for every readable path argument and valid output buffer,
`sys_lstat` writes the entirely zero-filled `stat` structure (all thirteen
fields zero) into the caller's buffer. -/
theorem lstat_zero_fills (p : String) (buf0 : stat) :
    sys_lstat (.ok p) (.ok ()) buf0 = (.ok 0, stat.zeroed) ∧
    stat.zeroed.st_dev = 0 ∧ stat.zeroed.st_ino = 0 ∧
    stat.zeroed.st_mode = 0 ∧ stat.zeroed.st_nlink = 0 ∧
    stat.zeroed.st_uid = 0 ∧ stat.zeroed.st_gid = 0 ∧
    stat.zeroed.st_rdev = 0 ∧ stat.zeroed.st_size = 0 ∧
    stat.zeroed.st_blksize = 0 ∧ stat.zeroed.st_blocks = 0 ∧
    stat.zeroed.st_atime_sec = 0 ∧ stat.zeroed.st_mtime_sec = 0 ∧
    stat.zeroed.st_ctime_sec = 0 :=
  ⟨rfl, rfl, rfl, rfl, rfl, rfl, rfl, rfl, rfl, rfl, rfl, rfl, rfl, rfl⟩

/-- Claim C10: `sys_lstat` takes no filesystem or descriptor-table
collaborator at all (its embedding has no environment argument); for every
readable path string and valid output buffer it returns success `0`, so it
can never surface `NotFound`, `PermissionDenied`, or any other filesystem
error. -/
theorem lstat_always_succeeds (p : String) (buf0 : stat) :
    (sys_lstat (.ok p) (.ok ()) buf0).1 = .ok 0 := rfl

/-- Shared helper: `sys_stat` leaves the buffer unchanged on error. -/
theorem sys_stat_buf_unchanged (env : SysEnv) (pa : Except LinuxError String)
    (sb : Except LinuxError Unit) (buf0 : stat) (e : LinuxError)
    (h : (sys_stat env pa sb buf0).1 = .error e) :
    (sys_stat env pa sb buf0).2 = buf0 := by
  unfold sys_stat at h ⊢
  cases pa with
  | error e2 => rfl
  | ok p => exact writeBuf_error_snd _ _ _ e h

/-- Shared helper: `sys_fstat` leaves the buffer unchanged on error. -/
theorem sys_fstat_buf_unchanged (env : SysEnv) (fd : Int)
    (sb : Except LinuxError Unit) (buf0 : stat) (e : LinuxError)
    (h : (sys_fstat env fd sb buf0).1 = .error e) :
    (sys_fstat env fd sb buf0).2 = buf0 :=
  writeBuf_error_snd _ _ _ e h

/-- Shared helper: `sys_lstat` leaves the buffer unchanged on error. -/
theorem sys_lstat_buf_unchanged (pl : Except LinuxError String)
    (sb : Except LinuxError Unit) (buf0 : stat) (e : LinuxError)
    (h : (sys_lstat pl sb buf0).1 = .error e) :
    (sys_lstat pl sb buf0).2 = buf0 := by
  unfold sys_lstat at h ⊢
  cases pl with
  | error e2 => rfl
  | ok p => exact writeBuf_error_snd _ _ _ e h

/-- Shared helper: `sys_fstatat` leaves the buffer unchanged on error. -/
theorem sys_fstatat_buf_unchanged (env : SysEnv) (dirfd : Int)
    (po : Except LinuxError (Option String)) (sb : Except LinuxError Unit)
    (flags : Nat) (buf0 : stat) (e : LinuxError)
    (h : (sys_fstatat env dirfd po sb flags buf0).1 = .error e) :
    (sys_fstatat env dirfd po sb flags buf0).2 = buf0 := by
  unfold sys_fstatat at h ⊢
  cases po with
  | error e2 => rfl
  | ok p => exact writeBuf_error_snd _ _ _ e h

/-- Shared helper: `sys_statx` leaves the buffer unchanged on error. -/
theorem sys_statx_buf_unchanged (env : SysEnv) (dirfd : Int)
    (po : Except LinuxError (Option String)) (flags mask : Nat)
    (sb : Except LinuxError Unit) (bufx0 : statx) (e : LinuxError)
    (h : (sys_statx env dirfd po flags mask sb bufx0).1 = .error e) :
    (sys_statx env dirfd po flags mask sb bufx0).2 = bufx0 := by
  unfold sys_statx at h ⊢
  cases po with
  | error e2 => rfl
  | ok p => exact writeBuf_error_snd _ _ _ e h

/-- Shared helper: `sys_statfs` leaves the buffer unchanged on error. -/
theorem sys_statfs_buf_unchanged (pf : Except LinuxError String)
    (sb : Except LinuxError Unit) (buff0 : statfs) (e : LinuxError)
    (h : (sys_statfs pf sb buff0).1 = .error e) :
    (sys_statfs pf sb buff0).2 = buff0 := by
  unfold sys_statfs at h ⊢
  cases pf with
  | error e2 => rfl
  | ok p => exact writeBuf_error_snd _ _ _ e h

/-- Claim C9: for every entry point and every input, an error outcome leaves
the caller-supplied output buffer exactly as it was — the buffer is written
only after the full metadata record has been obtained, so no call produces
a half-written structure. -/
theorem error_leaves_buffer_unchanged (env : SysEnv)
    (pa pl pf : Except LinuxError String)
    (po : Except LinuxError (Option String)) (sb : Except LinuxError Unit)
    (fd dirfd : Int) (flags mask : Nat)
    (buf0 : stat) (bufx0 : statx) (buff0 : statfs) (e : LinuxError) :
    ((sys_stat env pa sb buf0).1 = .error e →
      (sys_stat env pa sb buf0).2 = buf0) ∧
    ((sys_fstat env fd sb buf0).1 = .error e →
      (sys_fstat env fd sb buf0).2 = buf0) ∧
    ((sys_lstat pl sb buf0).1 = .error e →
      (sys_lstat pl sb buf0).2 = buf0) ∧
    ((sys_fstatat env dirfd po sb flags buf0).1 = .error e →
      (sys_fstatat env dirfd po sb flags buf0).2 = buf0) ∧
    ((sys_statx env dirfd po flags mask sb bufx0).1 = .error e →
      (sys_statx env dirfd po flags mask sb bufx0).2 = bufx0) ∧
    ((sys_statfs pf sb buff0).1 = .error e →
      (sys_statfs pf sb buff0).2 = buff0) :=
  ⟨sys_stat_buf_unchanged env pa sb buf0 e,
   sys_fstat_buf_unchanged env fd sb buf0 e,
   sys_lstat_buf_unchanged pl sb buf0 e,
   sys_fstatat_buf_unchanged env dirfd po sb flags buf0 e,
   sys_statx_buf_unchanged env dirfd po flags mask sb bufx0 e,
   sys_statfs_buf_unchanged pf sb buff0 e⟩

/-- Witness for C9: a failing instance of each entry point in the concrete
environment leaves its buffer untouched (missing path for `stat`, invalid
descriptor for `fstat`, faulting path pointer for `lstat` and `statfs`,
empty path without the flag for `fstatat` and `statx`). -/
theorem error_leaves_buffer_unchanged_witness :
    (sys_stat envW (.ok "/missing") (.ok ()) stat.zeroed).2 = stat.zeroed ∧
    (sys_fstat envW 99 (.ok ()) stat.zeroed).2 = stat.zeroed ∧
    (sys_lstat (.error .EFAULT) (.ok ()) stat.zeroed).2 = stat.zeroed ∧
    (sys_fstatat envW 3 (.ok (some "")) (.ok ()) 0 stat.zeroed).2 =
      stat.zeroed ∧
    (sys_statx envW 3 (.ok (some "")) 0 0 (.ok ()) statx.zeroed).2 =
      statx.zeroed ∧
    (sys_statfs (.error .EFAULT) (.ok ()) statfs.zeroed).2 =
      statfs.zeroed :=
  ⟨(error_leaves_buffer_unchanged envW (.ok "/missing") (.error .EFAULT)
      (.error .EFAULT) (.ok (some "")) (.ok ()) 99 3 0 0 stat.zeroed
      statx.zeroed statfs.zeroed .ENOENT).1 (by decide),
   (error_leaves_buffer_unchanged envW (.ok "/missing") (.error .EFAULT)
      (.error .EFAULT) (.ok (some "")) (.ok ()) 99 3 0 0 stat.zeroed
      statx.zeroed statfs.zeroed .EBADF).2.1 (by decide),
   (error_leaves_buffer_unchanged envW (.ok "/missing") (.error .EFAULT)
      (.error .EFAULT) (.ok (some "")) (.ok ()) 99 3 0 0 stat.zeroed
      statx.zeroed statfs.zeroed .EFAULT).2.2.1 (by decide),
   (error_leaves_buffer_unchanged envW (.ok "/missing") (.error .EFAULT)
      (.error .EFAULT) (.ok (some "")) (.ok ()) 99 3 0 0 stat.zeroed
      statx.zeroed statfs.zeroed .ENOENT).2.2.2.1 (by decide),
   (error_leaves_buffer_unchanged envW (.ok "/missing") (.error .EFAULT)
      (.error .EFAULT) (.ok (some "")) (.ok ()) 99 3 0 0 stat.zeroed
      statx.zeroed statfs.zeroed .ENOENT).2.2.2.2.1 (by decide),
   (error_leaves_buffer_unchanged envW (.ok "/missing") (.error .EFAULT)
      (.error .EFAULT) (.ok (some "")) (.ok ()) 99 3 0 0 stat.zeroed
      statx.zeroed statfs.zeroed .EFAULT).2.2.2.2.2 (by decide)⟩
